import Mathlib

/-!
Shallow embedding of `src/backend/python/imslp_enrich.py`.

The script resolves a page reference to a canonical wiki title
(`extract_title`), polls the page, and assembles a metadata document with
four independently populated sections; the file list is seeded from the
page's image listing and then reconciled with a batched remote imageinfo
lookup (`main`).  Pure string manipulation is modelled directly; each
external interaction (HTTP fetch, page-object attribute access) is an
explicit input of `Except`/`Option` type, where `Except.error msg` models a
raised Python exception whose `str` is `msg`.
-/

namespace ImslpEnrich

/-! ### Python string primitives -/

/-- If `p` is a prefix of `s`, return the remainder of `s`; else `none`. -/
def stripChars (p s : List Char) : Option (List Char) :=
  match p, s with
  | [], rest => some rest
  | _ :: _, [] => none
  | a :: ps, b :: ss => if a = b then stripChars ps ss else none

/-- Python `s.startswith(p)`. -/
def pyStartsWith (s p : String) : Bool :=
  (stripChars p.toList s.toList).isSome

/-- Fuel-driven worker for `pyReplace`; each step consumes at least one
character of `l` when `pat` is non-empty, so `l.length` fuel suffices. -/
def replaceFuel (pat rep : List Char) : Nat → List Char → List Char
  | 0, l => l
  | _ + 1, [] => []
  | fuel + 1, c :: rest =>
    match stripChars pat (c :: rest) with
    | some remainder => rep ++ replaceFuel pat rep fuel remainder
    | none => c :: replaceFuel pat rep fuel rest

/-- Python `s.replace(pat, rep)`: every non-overlapping occurrence, left to
right.  (Python's empty-pattern insertion behaviour is never exercised by
the script, whose patterns are all non-empty literals; we return `s`.) -/
def pyReplace (s pat rep : String) : String :=
  if pat.isEmpty then s
  else String.mk (replaceFuel pat.toList rep.toList s.toList.length s.toList)

/-- The remainder of `s` after the first occurrence of `sep`
(`s.split(sep, 1)[1]` in Python); `none` when `sep` does not occur. -/
def afterFirstAux (sep : List Char) : List Char → Option (List Char)
  | [] => none
  | c :: rest =>
    match stripChars sep (c :: rest) with
    | some r => some r
    | none => afterFirstAux sep rest

def afterFirst (s sep : String) : String :=
  match afterFirstAux sep.toList s.toList with
  | some r => String.mk r
  | none => ""

def hexVal (c : Char) : Option Nat :=
  if '0' ≤ c ∧ c ≤ '9' then some (c.toNat - '0'.toNat)
  else if 'a' ≤ c ∧ c ≤ 'f' then some (c.toNat - 'a'.toNat + 10)
  else if 'A' ≤ c ∧ c ≤ 'F' then some (c.toNat - 'A'.toNat + 10)
  else none

/-- Byte-level model of `urllib.parse.unquote`: each valid `%XX` escape
decodes to the character of that byte value, malformed escapes are kept
verbatim.  (The UTF-8 recombination step of the real `unquote` is identity
on the ASCII data the claims exercise.) -/
def unquoteChars : List Char → List Char
  | '%' :: a :: b :: rest =>
    match hexVal a, hexVal b with
    | some x, some y => Char.ofNat (16 * x + y) :: unquoteChars rest
    | _, _ => '%' :: unquoteChars (a :: b :: rest)
  | c :: rest => c :: unquoteChars rest
  | [] => []

def unquote (s : String) : String :=
  String.mk (unquoteChars s.toList)

/-- Python `s.isdigit()` (restricted to ASCII digits, the only case the
script meets): non-empty and all decimal digits. -/
def pyIsDigit (s : String) : Bool :=
  !s.toList.isEmpty && s.toList.all Char.isDigit

/-- Python truthiness of an optional string (`None` and `""` are falsy). -/
def strTruthy : Option String → Bool
  | none => false
  | some s => !s.isEmpty

/-- Python `a or b` on optional strings. -/
def pyOr (a b : Option String) : Option String :=
  if strTruthy a then a else b

/-! ### `get_with_retry` (lines 15-27)

`attempts i = some r` means the `i`-th `requests.get` call returns response
`r`; `none` means it raises a transport error.  The result pairs the
returned response (`none` when every attempt failed and the last exception
is re-raised) with the list of `time.sleep` durations, in order.  Delays
are exact rationals: the code computes `delay = 1.0; delay *= backoff`. -/

def retryLoop {α : Type} (backoff : ℚ) (attempts : Nat → Option α) :
    Nat → Nat → ℚ → Option α × List ℚ
  | 0, _, _ => (none, [])
  | n + 1, i, delay =>
    match attempts i with
    | some r => (some r, [])
    | none =>
      let rest := retryLoop backoff attempts n (i + 1) (delay * backoff)
      (rest.1, delay :: rest.2)

def get_with_retry {α : Type} (tries : Nat) (backoff : ℚ)
    (attempts : Nat → Option α) : Option α × List ℚ :=
  retryLoop backoff attempts (max 1 tries) 0 1

/-! ### `extract_title` (lines 30-61)

Network interactions are inputs: `FetchResult` is the observable outcome of
one HTTP call site.  `raise` covers both a transport error surviving all
retries and a later exception (e.g. JSON decode) inside the guarded block
— in either case the `except` clause falls through to the next strategy.
`notOk` is a response with `r.ok` false. -/

inductive FetchResult (α : Type) : Type where
  | raise : FetchResult α
  | notOk : FetchResult α
  | ok : α → FetchResult α
deriving DecidableEq

/-- One entry of `data['query']['pages']` for the `prop=info` query.
`missing` holds the raw value of the `missing` key when present (MediaWiki
sends `""`); `page.get('missing')` truthiness is `strTruthy missing`. -/
structure ApiPage : Type where
  missing : Option String
  title : Option String
deriving DecidableEq

/-- The two network call sites of the numeric-identifier strategies:
the structured `prop=info` query (its parsed `pages` mapping, in dict
insertion order) and the `index.php?curid=` HTML fetch (its body text). -/
structure ResolveEnv : Type where
  api : FetchResult (List (String × ApiPage))
  html : FetchResult String
deriving DecidableEq

/-- Literal head of the canonical-link pattern, up to the optional `s`. -/
def canonLit1 : List Char :=
  ('<' :: "link rel=".toList) ++ ('\x22' :: "canonical".toList) ++
    ('\x22' :: " href=".toList) ++ ('\x22' :: "http".toList)

/-- Literal tail of the pattern after the optional `s`. -/
def canonLit2 : List Char := "://imslp.org/wiki/".toList

/-- Characters up to (excluding) the next `"`; `none` if no `"` follows. -/
def takeToQuote : List Char → Option (List Char)
  | [] => none
  | c :: rest =>
    if c = '\x22' then some [] else (takeToQuote rest).map (c :: ·)

/-- Match `://imslp.org/wiki/([^\x22]+)\x22` at the head of `r`. -/
def canonTail (r : List Char) : Option String :=
  match stripChars canonLit2 r with
  | none => none
  | some r2 =>
    match takeToQuote r2 with
    | some [] => none
    | some cs => some (String.mk cs)
    | none => none

/-- Match the whole canonical-link regex at the head of `s`
(`https?` via the optional `s`, with backtracking). -/
def canonAt (s : List Char) : Option String :=
  match stripChars canonLit1 s with
  | none => none
  | some rest =>
    match rest with
    | 's' :: r =>
      match canonTail r with
      | some x => some x
      | none => canonTail rest
    | _ => canonTail rest

/-- `re.search`: leftmost match of the canonical-link pattern. -/
def canonSearch : List Char → Option String
  | [] => none
  | c :: rest =>
    match canonAt (c :: rest) with
    | some x => some x
    | none => canonSearch rest

def canonicalSlug (txt : String) : Option String :=
  canonSearch txt.toList

/-- `extract_title` (lines 30-61).  Returns the resolved title together
with the number of HTTP call sites executed (a `get_with_retry` call and a
plain `requests.get` each count once): the permalink branch performs no
network call. -/
def extract_title (target : String) (env : ResolveEnv) : String × Nat :=
  if pyStartsWith target "http://imslp.org/wiki/" ||
      pyStartsWith target "https://imslp.org/wiki/" then
    (unquote (afterFirst target "/wiki/"), 0)
  else if pyIsDigit target then
    -- strategy a: structured prop=info lookup; any exception is swallowed
    let viaApi : Option String :=
      match env.api with
      | .ok pages =>
        -- page = next(iter(pages.values())) if pages else None
        match pages.head? with
        | some (_, page) =>
          if !strTruthy page.missing && strTruthy page.title then
            some (unquote (page.title.getD ""))
          else none
        | none => none
      | _ => none
    match viaApi with
    | some t => (t, 1)
    | none =>
      -- strategy b: scrape the canonical link from the HTML page
      match env.html with
      | .ok txt =>
        match canonicalSlug txt with
        | some slug => (pyReplace (unquote slug) "_" " ", 2)
        | none => (unquote target, 2)
      | _ => (unquote target, 2)
  else
    (unquote target, 0)

/-! ### File records: seed phase (lines 106-138) -/

/-- The `imageinfo` dict attached to an image listing entry (seed phase)
or the first element of a page's `imageinfo` array (batched phase).
Fields are `dict.get` results: `none` for an absent key or a `null`
value. -/
structure ImageInfo : Type where
  url : Option String
  size : Option Int
  sha1 : Option String
  mime : Option String
  timestamp : Option String
  user : Option String
deriving DecidableEq

/-- One entry of the page's image listing.  `imageinfo = none` models both
an absent `imageinfo` attribute resolving to a non-dict and the
`isinstance` guard failing; a present dict is a (possibly all-`none`)
`ImageInfo`. -/
structure Img : Type where
  name : Option String
  page_title : Option String
  imageinfo : Option ImageInfo
deriving DecidableEq

structure DownloadUrls : Type where
  original : Option String
  https : Option String
  direct : Option String
deriving DecidableEq

structure FileRecord : Type where
  name : Option String
  title : Option String
  url : Option String
  size : Option Int
  sha1 : Option String
  mime_type : Option String
  timestamp : Option String
  user : Option String
  download_urls : DownloadUrls
deriving DecidableEq

/-- The seed-phase `download_urls` dict literal (lines 133-137). -/
def seed_download_urls (url : Option String) : DownloadUrls :=
  { original := url
    https := if strTruthy url then
        url.map (fun u => pyReplace u "http:" "https:")
      else none
    direct := if strTruthy url && pyStartsWith (url.getD "") "//" then
        url.map (fun u => pyReplace u "//imslp.org/" "https://imslp.org/")
      else url }

/-- The seed loop (lines 116-138): builds `temp_files` and `titles` from
the (already `[:100]`-capped) image listing. -/
def seedFiles : List Img → List FileRecord × List String
  | [] => ([], [])
  | img :: rest =>
    let info := img.imageinfo
    let url := info.bind ImageInfo.url
    let use_title := pyOr img.name img.page_title
    let record : FileRecord :=
      { name := img.name
        title := use_title
        url := url
        size := info.bind ImageInfo.size
        sha1 := info.bind ImageInfo.sha1
        mime_type := info.bind ImageInfo.mime
        timestamp := info.bind ImageInfo.timestamp
        user := info.bind ImageInfo.user
        download_urls := seed_download_urls url }
    let tail := seedFiles rest
    let titles :=
      match use_title with
      | some t => if t.isEmpty then tail.2 else t :: tail.2
      | none => tail.2
    (record :: tail.1, titles)

/-! ### Batched enrichment and reconciliation (lines 140-185) -/

/-- One entry of `data['query']['pages']` for the `prop=imageinfo` query:
its `title` and its `imageinfo` array (`p.get('imageinfo') or []`, so a
missing or falsy value is the empty list). -/
structure PageEntry : Type where
  title : Option String
  imageinfo : List ImageInfo
deriving DecidableEq

/-- Outcome of one chunk's `get_with_retry` call: `raise` (all retry
attempts failed with a transport error, so the exception propagates),
`notOk` (`r.ok` false — the chunk is skipped), or `ok` with the parsed
page entries in dict order. -/
inductive ChunkOutcome : Type where
  | raise : String → ChunkOutcome
  | notOk : ChunkOutcome
  | ok : List PageEntry → ChunkOutcome

/-- Python `dict.get` on the association list (keys are unique, see
`dictInsert`). -/
def dictGet (m : List (String × ImageInfo)) (k : String) :
    Option ImageInfo :=
  (m.find? (fun p => p.1 = k)).map (fun p => p.2)

/-- Python `d[k] = v`: replace an existing binding, else append. -/
def dictInsert (m : List (String × ImageInfo)) (k : String)
    (v : ImageInfo) : List (String × ImageInfo) :=
  if m.any (fun p => p.1 = k) then
    m.map (fun p => if p.1 = k then (k, v) else p)
  else m ++ [(k, v)]

/-- `titles[i:i+50]` for `i in range(0, len l, 50)`: the chunks fed to the
batched queries (the caller passes `l := titles.take 100`, matching
`min(len(titles), 100)`). -/
def chunksFuel : Nat → List String → List (List String)
  | 0, _ => []
  | _ + 1, [] => []
  | fuel + 1, x :: xs => (x :: xs).take 50 :: chunksFuel fuel ((x :: xs).drop 50)

def chunksOf50 (l : List String) : List (List String) :=
  chunksFuel l.length l

/-- The parse loop for one successful chunk response (lines 156-164):
insert `ti ↦ ii[0]` for every page entry with a truthy title and a
non-empty imageinfo array. -/
def parsePages (acc : List (String × ImageInfo)) :
    List PageEntry → List (String × ImageInfo)
  | [] => acc
  | p :: rest =>
    match p.title, p.imageinfo with
    | some ti, info :: _ =>
      if ti.isEmpty then parsePages acc rest
      else parsePages (dictInsert acc ti info) rest
    | _, _ => parsePages acc rest

/-- The chunk loop (lines 145-164).  `fetch j` is the outcome of the
`j`-th chunk's query.  A `raise` propagates out of the whole guarded
block (`Except.error`); `notOk` skips the chunk. -/
def runChunks (fetch : Nat → ChunkOutcome) :
    List (List String) → Nat → List (String × ImageInfo) →
    Except String (List (String × ImageInfo))
  | [], _, acc => .ok acc
  | _ :: cs, j, acc =>
    match fetch j with
    | .raise msg => .error msg
    | .notOk => runChunks fetch cs (j + 1) acc
    | .ok pages => runChunks fetch cs (j + 1) (parsePages acc pages)

/-- The reconciliation loop body (lines 167-183) for one record.  `by_title`
values are truthy (non-empty) info dicts, so `if not info: continue`
is the `none` case of the lookup. -/
def mergeRecord (by_title : List (String × ImageInfo)) (f : FileRecord) :
    FileRecord :=
  match f.title.bind (dictGet by_title) with
  | none => f
  | some info =>
    let url := info.url
    { f with
      url := pyOr url f.url
      size := if info.size.isSome then info.size else f.size
      sha1 := pyOr info.sha1 f.sha1
      mime_type := pyOr info.mime f.mime_type
      timestamp := pyOr info.timestamp f.timestamp
      user := pyOr info.user f.user
      download_urls :=
        { original := url
          https := if strTruthy url then
              url.map (fun u => pyReplace u "http:" "https:")
            else none
          direct := url } }

/-- The files-section body (lines 113-187) for an already-fetched image
listing: seed, then — inside one `try` — batched queries and
reconciliation; a raised chunk query aborts the whole guarded block,
leaving the seeded `temp_files` as-is (`except Exception: pass`). -/
def filesSectionCore (imgs : List Img) (fetch : Nat → ChunkOutcome) :
    List FileRecord :=
  let seeded := seedFiles imgs
  if seeded.2.isEmpty then seeded.1
  else
    match runChunks fetch (chunksOf50 (seeded.2.take 100)) 0 [] with
    | .error _ => seeded.1
    | .ok by_title => seeded.1.map (mergeRecord by_title)

/-! ### Section aggregator (`main`, lines 79-203) -/

/-- One entry of `metadata['revision_history']`: the revision dicts'
`.get` fields.  `list(page.revisions())` materialises the listing before
the loop, and `dict.get` never raises, so per-entry construction is
total. -/
structure RevEntry : Type where
  revid : Option Int
  user : Option String
  timestamp : Option String
  comment : Option String
deriving DecidableEq

/-- `metadata['basic_info']` when its construction succeeds.  `ns` models
the `namespace` attribute. -/
structure BasicInfo : Type where
  page_name : String
  page_title : String
  page_id : Option Int
  ns : Option Int
  last_revision : Option Int
deriving DecidableEq

/-- The observable behaviour of the page object: each fallible attribute
access or listing call is an `Except` (error = the exception's message);
the `getattr(_, _, None)` accesses never raise. -/
structure PageInputs : Type where
  nameR : Except String String
  pageTitleR : Except String String
  pageid : Option Int
  ns : Option Int
  revision : Option Int
  categoriesR : Except String (List String)
  imagesR : Except String (List Img)
  revisionsR : Except String (List RevEntry)

/-- The four sections of the metadata document and their error keys
(`none` = key absent).  The constant header fields (`page_title`, `url`,
wall-clock `timestamp`, `exists`) are independent of the sections and are
omitted. -/
structure Metadata : Type where
  basic_info : Option BasicInfo
  basic_info_error : Option String
  categories : List String
  categories_error : Option String
  files : List FileRecord
  files_error : Option String
  revision_history : List RevEntry
  revision_history_error : Option String
deriving DecidableEq

/-- The four `try`/`except` section blocks of `main` (lines 90-201).

* basic info: the dict literal evaluates `page.name` then
  `page.page_title`; either failure leaves `basic_info` at `{}` (`none`)
  and records the message.
* categories: atomic assignment, failure leaves `[]` and records.
* files: the image listing has its own silent `try` (`imgs = []` on
  failure, line 108-111) and the batched block its own silent `try`
  (lines 141-185); the remaining statements of the outer `try` are total,
  so `files_error` (line 189) is never assigned.
* revision history: `list(page.revisions())` failure leaves `[]` and
  records; per-entry `.get` construction cannot raise. -/
def buildSections (p : PageInputs) (fetch : Nat → ChunkOutcome) :
    Metadata :=
  let basic : Option BasicInfo × Option String :=
    match p.nameR, p.pageTitleR with
    | .ok n, .ok t =>
      (some { page_name := n, page_title := t, page_id := p.pageid,
              ns := p.ns, last_revision := p.revision }, none)
    | .error e, _ => (none, some e)
    | _, .error e => (none, some e)
  let cats : List String × Option String :=
    match p.categoriesR with
    | .ok l => (l, none)
    | .error e => ([], some e)
  let imgs : List Img :=
    match p.imagesR with
    | .ok l => l.take 100
    | .error _ => []
  let revs : List RevEntry × Option String :=
    match p.revisionsR with
    | .ok l => (l.take 5, none)
    | .error e => ([], some e)
  { basic_info := basic.1
    basic_info_error := basic.2
    categories := cats.1
    categories_error := cats.2
    files := filesSectionCore imgs fetch
    files_error := none
    revision_history := revs.1
    revision_history_error := revs.2 }

/-! ## Helper lemmas -/

theorem pyOr_idem (a b : Option String) : pyOr a (pyOr a b) = pyOr a b := by
  unfold pyOr
  by_cases h : strTruthy a = true <;> simp [h]

theorem mergeRecord_title (m : List (String × ImageInfo)) (f : FileRecord) :
    (mergeRecord m f).title = f.title := by
  unfold mergeRecord
  cases h : f.title.bind (dictGet m) <;> simp

theorem mergeRecord_idempotent (m : List (String × ImageInfo))
    (f : FileRecord) :
    mergeRecord m (mergeRecord m f) = mergeRecord m f := by
  unfold mergeRecord
  cases h : f.title.bind (dictGet m) with
  | none => simp [h]
  | some info =>
    simp only [h]
    simp only [pyOr_idem, h]
    split <;> simp [pyOr_idem]

theorem seedFiles_fst_title (imgs : List Img) :
    (seedFiles imgs).1.map FileRecord.title =
      imgs.map (fun im => pyOr im.name im.page_title) := by
  induction imgs with
  | nil => rfl
  | cons img rest ih => simp [seedFiles, ih]

theorem seedFiles_snd (imgs : List Img) :
    (seedFiles imgs).2 =
      (imgs.map (fun im => pyOr im.name im.page_title)).filterMap
        (fun t => if strTruthy t then t else none) := by
  induction imgs with
  | nil => rfl
  | cons img rest ih =>
    simp only [seedFiles, List.map_cons, List.filterMap_cons]
    cases h : pyOr img.name img.page_title with
    | none => simp [h, strTruthy, ih]
    | some t =>
      by_cases he : t.isEmpty = true <;> simp [h, he, strTruthy, ih]

theorem stripChars_head_ne (a b : Char) (p s : List Char) (h : a ≠ b) :
    stripChars (a :: p) (b :: s) = none := by
  simp [stripChars, h]

theorem pyIsDigit_not_wiki (s : String) (h : pyIsDigit s = true) :
    (pyStartsWith s "http://imslp.org/wiki/" ||
     pyStartsWith s "https://imslp.org/wiki/") = false := by
  unfold pyIsDigit at h
  unfold pyStartsWith
  cases hs : s.toList with
  | nil => rw [hs] at h; simp at h
  | cons c cs =>
    rw [hs] at h
    simp only [Bool.and_eq_true, List.isEmpty_cons, List.all_cons] at h
    have hc : c.isDigit = true := h.2.1
    have hne : ('h' : Char) ≠ c := by
      intro hh
      rw [← hh] at hc
      exact absurd hc (by decide)
    have e1 : ("http://imslp.org/wiki/" : String).toList =
        'h' :: ("ttp://imslp.org/wiki/" : String).toList := rfl
    have e2 : ("https://imslp.org/wiki/" : String).toList =
        'h' :: ("ttps://imslp.org/wiki/" : String).toList := rfl
    rw [e1, e2, stripChars_head_ne _ _ _ _ hne, stripChars_head_ne _ _ _ _ hne]
    rfl

/-! ## Claims -/

/-- C6 (confirmed): for every input of the recognized wiki permalink shape
(prefix `http://imslp.org/wiki/` or `https://imslp.org/wiki/`), `resolve`
returns the URL-decoded path segment after the first `/wiki/` marker and
performs zero network calls, whatever the network would answer. -/
theorem C6_permalink_resolved_locally (target : String) (env : ResolveEnv)
    (h : (pyStartsWith target "http://imslp.org/wiki/" ||
          pyStartsWith target "https://imslp.org/wiki/") = true) :
    extract_title target env = (unquote (afterFirst target "/wiki/"), 0) := by
  unfold extract_title
  rw [h]
  rfl

/-- Witness for C6 at the scenario-A-style permalink
`https://imslp.org/wiki/Ave%20Maria`: the hypothesis holds and the result
is the decoded segment `Ave Maria` with zero network calls, even against a
network that would fail every request. -/
theorem C6_permalink_resolved_locally_witness :
    extract_title "https://imslp.org/wiki/Ave%20Maria"
        ⟨FetchResult.raise, FetchResult.raise⟩ = ("Ave Maria", 0) :=
  (C6_permalink_resolved_locally "https://imslp.org/wiki/Ave%20Maria"
      ⟨FetchResult.raise, FetchResult.raise⟩ (by decide)).trans (by decide)

theorem retryLoop_fail_step {α : Type} (b : ℚ) (attempts : Nat → Option α)
    (n i : Nat) (d : ℚ) (h : attempts i = none) :
    retryLoop b attempts (n + 1) i d =
      ((retryLoop b attempts n (i + 1) (d * b)).1,
        d :: (retryLoop b attempts n (i + 1) (d * b)).2) := by
  simp only [retryLoop, h]

theorem retryLoop_spec {α : Type} (b : ℚ) (attempts : Nat → Option α)
    (r : α) :
    ∀ (n i : Nat) (d : ℚ), (∀ k, k < n → attempts (i + k) = none) →
      attempts (i + n) = some r →
      retryLoop b attempts (n + 1) i d =
        (some r, (List.range n).map (fun k => d * b ^ k)) := by
  intro n
  induction n with
  | zero =>
    intro i d _ hsucc
    simp only [Nat.add_zero] at hsucc
    simp [retryLoop, hsucc]
  | succ n ih =>
    intro i d hfail hsucc
    have h0 : attempts i = none := by
      have := hfail 0 (Nat.succ_pos n)
      simpa using this
    have ih' := ih (i + 1) (d * b)
      (fun k hk => by
        rw [show i + 1 + k = i + (k + 1) by omega]
        exact hfail (k + 1) (by omega))
      (by rw [show i + 1 + n = i + (n + 1) by omega]; exact hsucc)
    rw [retryLoop_fail_step b attempts (n + 1) i d h0, ih']
    rw [List.range_succ_eq_map, List.map_cons, List.map_map]
    simp only [pow_zero, mul_one]
    refine Prod.ext rfl ?_
    simp only [List.cons.injEq, true_and]
    refine List.map_congr_left ?_
    intro k _
    simp only [Function.comp_apply, pow_succ]
    ring

/-- C7 (confirmed): if the underlying GET raises a transport error on the
first `N` calls and returns `r` on call `N+1`, then `get_with_retry` with
`tries = N+1` returns `r` and sleeps exactly `N` times, the `k`-th sleep
(1-indexed) lasting `d * b^(k-1)` seconds with the code's fixed initial
delay `d = 1.0` and backoff multiplier `b`. -/
theorem C7_retry_backoff {α : Type} (N : Nat) (b : ℚ)
    (attempts : Nat → Option α) (r : α)
    (hfail : ∀ k, k < N → attempts k = none)
    (hsucc : attempts N = some r) :
    get_with_retry (N + 1) b attempts =
      (some r, (List.range N).map (fun k => 1 * b ^ k)) := by
  have h := retryLoop_spec b attempts r N 0 1
    (fun k hk => by simpa using hfail k hk)
    (by simpa using hsucc)
  unfold get_with_retry
  rw [show max 1 (N + 1) = N + 1 by omega]
  exact h

/-- Witness for C7 at `N = 2`, `b = 2`: two transport failures then a
success at the third attempt, with sleeps `[1, 2]`. -/
theorem C7_retry_backoff_witness :
    get_with_retry 3 (2 : ℚ) (fun i => if i < 2 then none else some 7) =
      (some 7, [(1 : ℚ), 2]) := by
  have h := C7_retry_backoff 2 (2 : ℚ)
    (fun i => if i < 2 then none else some 7) 7
    (fun k hk => by interval_cases k <;> rfl) rfl
  rw [h]
  norm_num [List.range_succ]

/-- C9 (confirmed): the reconciliation step — mapping `mergeRecord` with a
fixed batched mapping over the seeded records — is idempotent. -/
theorem C9_reconciliation_idempotent (m : List (String × ImageInfo))
    (files : List FileRecord) :
    (files.map (mergeRecord m)).map (mergeRecord m) =
      files.map (mergeRecord m) := by
  rw [List.map_map]
  exact List.map_congr_left fun f _ => mergeRecord_idempotent m f

def imgsC4 : List Img :=
  [⟨some "N", some "T", none⟩, ⟨some "N", some "T", none⟩]

/-- C4 counterexample: two listing entries, each with `name = "N"` and
`page_title = "T"` both present.  The claim says the records' `title`
field is the entry's title (`"T"`) with `name` only as fallback, and that
the merge keys are duplicate-free.  The code computes `use_title = name or
title`, so both records get title `"N"` and the key list is `["N", "N"]`
with a duplicate. -/
theorem C4_counterexample :
    ¬ ((seedFiles imgsC4).1.map FileRecord.title = [some "T", some "T"]) ∧
    (seedFiles imgsC4).1.map FileRecord.title = [some "N", some "N"] ∧
    ¬ (seedFiles imgsC4).2.Nodup ∧
    (seedFiles imgsC4).2 = ["N", "N"] := by
  refine ⟨by decide, by decide, by decide, by decide⟩

/-- C4 amended: each seeded record's `title` is `name or title` — the
entry's `name` when truthy, falling back to the entry's `page_title`; the
merge keys are the truthy such values in listing order, duplicates
retained, and at most 100 of them arise from the 100-capped listing; the
merger never overwrites the `title` field. -/
theorem C4_amended_seed_titles (imgs : List Img)
    (m : List (String × ImageInfo)) :
    (seedFiles imgs).1.map FileRecord.title =
      imgs.map (fun im => pyOr im.name im.page_title) ∧
    (seedFiles imgs).2 =
      (imgs.map (fun im => pyOr im.name im.page_title)).filterMap
        (fun t => if strTruthy t then t else none) ∧
    ((seedFiles (imgs.take 100)).2).length ≤ 100 ∧
    (∀ f : FileRecord, (mergeRecord m f).title = f.title) := by
  refine ⟨seedFiles_fst_title imgs, seedFiles_snd imgs, ?_,
    fun f => mergeRecord_title m f⟩
  rw [seedFiles_snd]
  have h1 := List.length_filterMap_le
    (fun t => if strTruthy t then t else none)
    ((imgs.take 100).map (fun im => pyOr im.name im.page_title))
  have h2 : ((imgs.take 100).map
      (fun im => pyOr im.name im.page_title)).length ≤ 100 := by
    simp [List.length_take]
  omega

def fetchNone : Nat → ChunkOutcome := fun _ => ChunkOutcome.notOk

def pC1 : PageInputs :=
  { nameR := .ok "PageName", pageTitleR := .ok "PageTitle",
    pageid := some 7, ns := some 0, revision := some 1,
    categoriesR := .ok ["Scores"], imagesR := .error "images down",
    revisionsR := .ok [⟨some 1, some "u", some "ts", some "c"⟩] }

/-- C1 counterexample: a page whose image listing raises `"images down"`.
The claim says any failure while populating a section is recorded as a
`<section>_error` string; here the file-list failure is caught by the
inner `try` at lines 108-111 and swallowed — `files` is `[]` and no
`files_error` key is ever recorded. -/
theorem C1_counterexample :
    pC1.imagesR = Except.error "images down" ∧
    (buildSections pC1 fetchNone).files_error = none ∧
    (buildSections pC1 fetchNone).files = [] ∧
    (buildSections pC1 fetchNone).categories = ["Scores"] := by
  refine ⟨rfl, rfl, rfl, rfl⟩

/-- C1 amended: failures in basic info (either fallible attribute),
categories, and revision history are caught at the section boundary,
recorded as `<section>_error` equal to the failure's message, and leave
the section at its default empty value; in the file-list section a
failure of the image listing is caught silently — `files` is seeded from
an empty listing and no `files_error` key is recorded (indeed
`files_error` is never set at this fault granularity).  Sections are
independent: each section's output depends only on its own page
inputs. -/
theorem C1_amended_section_isolation (p : PageInputs)
    (fetch : Nat → ChunkOutcome) :
    (∀ e, p.nameR = .error e →
      (buildSections p fetch).basic_info = none ∧
      (buildSections p fetch).basic_info_error = some e) ∧
    (∀ n e, p.nameR = .ok n → p.pageTitleR = .error e →
      (buildSections p fetch).basic_info = none ∧
      (buildSections p fetch).basic_info_error = some e) ∧
    (∀ e, p.categoriesR = .error e →
      (buildSections p fetch).categories = [] ∧
      (buildSections p fetch).categories_error = some e) ∧
    (∀ e, p.revisionsR = .error e →
      (buildSections p fetch).revision_history = [] ∧
      (buildSections p fetch).revision_history_error = some e) ∧
    (buildSections p fetch).files_error = none ∧
    (∀ e, p.imagesR = .error e → (buildSections p fetch).files = []) ∧
    (∀ q : PageInputs, q.categoriesR = p.categoriesR →
      (buildSections q fetch).categories =
        (buildSections p fetch).categories ∧
      (buildSections q fetch).categories_error =
        (buildSections p fetch).categories_error) ∧
    (∀ q : PageInputs, q.imagesR = p.imagesR →
      (buildSections q fetch).files = (buildSections p fetch).files) ∧
    (∀ q : PageInputs, q.revisionsR = p.revisionsR →
      (buildSections q fetch).revision_history =
        (buildSections p fetch).revision_history) ∧
    (∀ q : PageInputs, q.nameR = p.nameR → q.pageTitleR = p.pageTitleR →
      q.pageid = p.pageid → q.ns = p.ns → q.revision = p.revision →
      (buildSections q fetch).basic_info =
        (buildSections p fetch).basic_info) := by
  refine ⟨?_, ?_, ?_, ?_, rfl, ?_, ?_, ?_, ?_, ?_⟩
  · intro e he; simp [buildSections, he]
  · intro n e hn he; simp [buildSections, hn, he]
  · intro e he; simp [buildSections, he]
  · intro e he; simp [buildSections, he]
  · intro e he; simp [buildSections, he, filesSectionCore, seedFiles]
  · intro q hq; simp [buildSections, hq]
  · intro q hq; simp [buildSections, hq]
  · intro q hq; simp [buildSections, hq]
  · intro q h1 h2 h3 h4 h5; simp [buildSections, h1, h2, h3, h4, h5]

def pC1w : PageInputs :=
  { nameR := .ok "PageName", pageTitleR := .ok "PageTitle",
    pageid := none, ns := none, revision := none,
    categoriesR := .error "cats down",
    imagesR := .ok [], revisionsR := .ok [] }

/-- Witness for C1 amended: a page whose categories listing raises
`"cats down"` gets `categories = []` and the error recorded. -/
theorem C1_amended_section_isolation_witness :
    (buildSections pC1w fetchNone).categories = [] ∧
    (buildSections pC1w fetchNone).categories_error = some "cats down" :=
  (C1_amended_section_isolation pC1w fetchNone).2.2.1 "cats down" rfl

def infoC2 : ImageInfo := ⟨none, none, some "z", some "", none, none⟩

def mC2 : List (String × ImageInfo) := [("T", infoC2)]

def fC2 : FileRecord :=
  { name := none, title := some "T", url := some "http://seed/x",
    size := some 10, sha1 := some "abc", mime_type := some "app/pdf",
    timestamp := some "2020", user := some "u",
    download_urls := ⟨none, none, none⟩ }

/-- C2 counterexample: the batched entry for title `"T"` carries
`mime = ""` — non-null — yet the merged record keeps the seed value
`"app/pdf"`: the code guards `mime_type` (like `url`, `sha1`,
`timestamp`, `user`) with Python truthiness (`or`), not a null check. -/
theorem C2_counterexample :
    dictGet mC2 "T" = some infoC2 ∧
    infoC2.mime = some "" ∧
    (mergeRecord mC2 fC2).mime_type = some "app/pdf" ∧
    ¬ (mergeRecord mC2 fC2).mime_type = some "" := by
  refine ⟨rfl, rfl, by decide, by decide⟩

/-- C2 amended: for every seeded record whose `title` is a key of the
batched mapping, `url`, `sha1`, `mime_type`, `timestamp` and `user` are
overwritten with the batched value exactly when it is truthy (non-null
and non-empty) and otherwise keep the seed value, while `size` is
overwritten exactly when the remote value is non-null; `name` and `title`
are never changed, and records whose title is not in the mapping are left
entirely unchanged. -/
theorem C2_amended_merge_fields (m : List (String × ImageInfo))
    (f : FileRecord) :
    (∀ t info, f.title = some t → dictGet m t = some info →
      (mergeRecord m f).url =
        (if strTruthy info.url then info.url else f.url) ∧
      (mergeRecord m f).size =
        (if info.size.isSome then info.size else f.size) ∧
      (mergeRecord m f).sha1 =
        (if strTruthy info.sha1 then info.sha1 else f.sha1) ∧
      (mergeRecord m f).mime_type =
        (if strTruthy info.mime then info.mime else f.mime_type) ∧
      (mergeRecord m f).timestamp =
        (if strTruthy info.timestamp then info.timestamp
         else f.timestamp) ∧
      (mergeRecord m f).user =
        (if strTruthy info.user then info.user else f.user) ∧
      (mergeRecord m f).name = f.name ∧
      (mergeRecord m f).title = f.title) ∧
    (f.title.bind (dictGet m) = none → mergeRecord m f = f) := by
  constructor
  · intro t info ht hinfo
    have hb : f.title.bind (dictGet m) = some info := by
      rw [ht]; simpa using hinfo
    simp [mergeRecord, hb, pyOr]
  · intro h
    simp [mergeRecord, h]

/-- Witness for C2 amended at `fC2`/`mC2`: truthy remote `sha1 = "z"`
wins, null remote `size` keeps the seed `10`, empty remote `mime` keeps
the seed `"app/pdf"`. -/
theorem C2_amended_merge_fields_witness :
    (mergeRecord mC2 fC2).sha1 = some "z" ∧
    (mergeRecord mC2 fC2).size = some 10 ∧
    (mergeRecord mC2 fC2).mime_type = some "app/pdf" := by
  have h := (C2_amended_merge_fields mC2 fC2).1 "T" infoC2 rfl rfl
  exact ⟨h.2.2.1.trans (by decide), h.2.1.trans (by decide),
    h.2.2.2.1.trans (by decide)⟩

def infoC3 : ImageInfo := ⟨none, none, some "z", none, none, none⟩

def mC3 : List (String × ImageInfo) := [("F", infoC3)]

def fC3 : FileRecord :=
  { name := some "F", title := some "F", url := some "http://x.pdf",
    size := none, sha1 := none, mime_type := none, timestamp := none,
    user := none,
    download_urls := seed_download_urls (some "http://x.pdf") }

/-- C3 counterexample: the batched entry matching `"F"` has a null remote
`url` (only `sha1` present), so the record's final `url` keeps the seed
value `"http://x.pdf"`, yet `download_urls.original` is set to the remote
url — `null` — not to the final url: lines 179-183 recompute
`download_urls` from `info.get('url')`, not from `f['url']`. -/
theorem C3_counterexample :
    (mergeRecord mC3 fC3).url = some "http://x.pdf" ∧
    (mergeRecord mC3 fC3).download_urls.original = none ∧
    ¬ (mergeRecord mC3 fC3).download_urls.original =
        (mergeRecord mC3 fC3).url := by
  refine ⟨by decide, by decide, by decide⟩

/-- C3 amended: for every record matched by the batched mapping,
`download_urls` is recomputed entirely from the REMOTE batched url:
`original` and `direct` equal the remote url as-is (null when absent),
and `https` equals the remote url with every occurrence of `http:`
replaced by `https:` when the remote url is truthy, null otherwise —
regardless of the record's final `url` field. -/
theorem C3_amended_download_urls_from_remote
    (m : List (String × ImageInfo)) (f : FileRecord) (t : String)
    (info : ImageInfo) (ht : f.title = some t)
    (hinfo : dictGet m t = some info) :
    (mergeRecord m f).download_urls =
      { original := info.url
        https := if strTruthy info.url then
            info.url.map (fun u => pyReplace u "http:" "https:")
          else none
        direct := info.url } := by
  have hb : f.title.bind (dictGet m) = some info := by
    rw [ht]; simpa using hinfo
  simp [mergeRecord, hb]

def infoC3w : ImageInfo :=
  ⟨some "http://y.pdf", none, none, none, none, none⟩

def mC3w : List (String × ImageInfo) := [("G", infoC3w)]

def fC3w : FileRecord :=
  { name := some "G", title := some "G", url := none, size := none,
    sha1 := none, mime_type := none, timestamp := none, user := none,
    download_urls := ⟨none, none, none⟩ }

/-- Witness for C3 amended: a truthy remote url `http://y.pdf` yields
`download_urls` `(original, https, direct) =
(http://y.pdf, https://y.pdf, http://y.pdf)`. -/
theorem C3_amended_download_urls_from_remote_witness :
    (mergeRecord mC3w fC3w).download_urls =
      ⟨some "http://y.pdf", some "https://y.pdf", some "http://y.pdf"⟩ :=
  (C3_amended_download_urls_from_remote mC3w fC3w "G" infoC3w rfl
      rfl).trans (by decide)

def pagesC5 : List (String × ApiPage) :=
  [("1", ⟨none, some "First Title"⟩), ("2", ⟨none, some "Second"⟩)]

def envC5 : ResolveEnv := ⟨.ok pagesC5, .raise⟩

/-- C5 counterexample: the structured endpoint returns TWO page entries,
yet `resolve` still returns the first entry's decoded title
`"First Title"` — the code takes `next(iter(pages.values()))` and never
checks that there is exactly one entry, contradicting the claim's
"only if ... contains exactly one page entry". -/
theorem C5_counterexample :
    ¬ (pagesC5.length = 1) ∧
    extract_title "12345" envC5 = ("First Title", 1) ∧
    unquote "First Title" = "First Title" := by
  refine ⟨by decide, by decide, rfl⟩

/-- C5 amended: for every purely-numeric input, whenever the structured
endpoint's response is ok and well-formed, its pages mapping is non-empty,
and the FIRST page entry is not marked missing (no truthy `missing`
value) and carries a truthy title, `resolve` returns that first entry's
URL-decoded title (no exactly-one check is performed). -/
theorem C5_amended_numeric_first_page (target : String)
    (env : ResolveEnv) (pages : List (String × ApiPage)) (k : String)
    (page : ApiPage) (hdigit : pyIsDigit target = true)
    (hapi : env.api = .ok pages)
    (hhead : pages.head? = some (k, page))
    (hmiss : strTruthy page.missing = false)
    (htitle : strTruthy page.title = true) :
    extract_title target env = (unquote (page.title.getD ""), 1) := by
  unfold extract_title
  rw [pyIsDigit_not_wiki target hdigit]
  simp only [Bool.false_eq_true, if_false, hdigit, if_true, hapi, hhead,
    hmiss, htitle]
  simp

def pagesC5w : List (String × ApiPage) :=
  [("12345", ⟨none, some "Symphony No.5"⟩)]

def envC5w : ResolveEnv := ⟨.ok pagesC5w, .raise⟩

/-- Witness for C5 amended — the scenario-B instance: input `"12345"`,
a single page keyed `"12345"` with title `"Symphony No.5"`, resolved
title `"Symphony No.5"` after one network call. -/
theorem C5_amended_numeric_first_page_witness :
    extract_title "12345" envC5w = ("Symphony No.5", 1) :=
  (C5_amended_numeric_first_page "12345" envC5w pagesC5w "12345"
      ⟨none, some "Symphony No.5"⟩ (by decide) rfl rfl rfl rfl).trans
    (by decide)

def imgsC8 : List Img :=
  [⟨some "A", none, some ⟨some "//other.org/x", none, none, none, none, none⟩⟩,
   ⟨some "B", none, some ⟨some "ftp://a?u=http://b", none, none, none, none, none⟩⟩,
   ⟨some "C", none, some ⟨some "", none, none, none, none, none⟩⟩]

/-- C8 counterexample, three seeded records in one listing.  The claim
predicts `direct = "https://other.org/x"` for the protocol-relative url
`//other.org/x` (rewrite every protocol-relative url), `https`
unchanged for `ftp://a?u=http://b` (only a LEADING `http:` rewritten) and
`https = ""` for the non-null url `""`.  The code instead leaves
`//other.org/x` alone (it only substitutes the literal `//imslp.org/`),
rewrites the embedded `http:` of the ftp url, and maps `""` to null
(truthiness guard). -/
theorem C8_counterexample :
    ((seedFiles imgsC8).1.map (fun f => f.download_urls.direct) =
      [some "//other.org/x", some "ftp://a?u=http://b", some ""]) ∧
    ¬ ((seedFiles imgsC8).1.map (fun f => f.download_urls.direct) =
      [some "https://other.org/x", some "ftp://a?u=http://b", some ""]) ∧
    ((seedFiles imgsC8).1.map (fun f => f.download_urls.https) =
      [some "//other.org/x", some "ftp://a?u=https://b", none]) ∧
    ¬ ((seedFiles imgsC8).1.map (fun f => f.download_urls.https) =
      [some "//other.org/x", some "ftp://a?u=http://b", some ""]) := by
  refine ⟨by decide, by decide, by decide, by decide⟩

/-- C8 amended: for every seeded record, `download_urls.original` is the
listing url as-is; `https` is the url with EVERY occurrence of `http:`
replaced by `https:` when the url is truthy (non-null, non-empty) and
null otherwise; `direct` is the url with every occurrence of the literal
`//imslp.org/` replaced by `https://imslp.org/` when the url is truthy
and begins with `//`, and the url unchanged otherwise. -/
theorem C8_amended_seed_download_urls (imgs : List Img) :
    ∀ f ∈ (seedFiles imgs).1,
      f.download_urls.original = f.url ∧
      f.download_urls.https =
        (if strTruthy f.url then
           f.url.map (fun u => pyReplace u "http:" "https:")
         else none) ∧
      f.download_urls.direct =
        (if strTruthy f.url && pyStartsWith (f.url.getD "") "//" then
           f.url.map (fun u => pyReplace u "//imslp.org/" "https://imslp.org/")
         else f.url) := by
  induction imgs with
  | nil => intro f hf; simp [seedFiles] at hf
  | cons img rest ih =>
    intro f hf
    simp only [seedFiles, List.mem_cons] at hf
    rcases hf with rfl | hf
    · exact ⟨rfl, rfl, rfl⟩
    · exact ih f hf

def imgsC8w : List Img :=
  [⟨some "x.pdf", none,
    some ⟨some "http://imslp.org/x.pdf", none, none, none, none, none⟩⟩]

def fC8w : FileRecord :=
  { name := some "x.pdf", title := some "x.pdf",
    url := some "http://imslp.org/x.pdf", size := none, sha1 := none,
    mime_type := none, timestamp := none, user := none,
    download_urls := seed_download_urls (some "http://imslp.org/x.pdf") }

/-- Witness for C8 amended — the scenario-D seed record with url
`http://imslp.org/x.pdf`: `original` keeps it and `https` is
`https://imslp.org/x.pdf`. -/
theorem C8_amended_seed_download_urls_witness :
    fC8w.download_urls.original = some "http://imslp.org/x.pdf" ∧
    fC8w.download_urls.https = some "https://imslp.org/x.pdf" := by
  have h := C8_amended_seed_download_urls imgsC8w fC8w (by decide)
  exact ⟨h.1.trans (by decide), h.2.1.trans (by decide)⟩

theorem runChunks_error_of_raise (fetch : Nat → ChunkOutcome) :
    ∀ (cs : List (List String)) (j0 : Nat)
      (acc : List (String × ImageInfo)) (j : Nat) (msg : String),
      j < cs.length → fetch (j0 + j) = .raise msg →
      (∀ i, i < j → ∀ m, fetch (j0 + i) ≠ .raise m) →
      runChunks fetch cs j0 acc = .error msg := by
  intro cs
  induction cs with
  | nil => intro j0 acc j msg hj; simp at hj
  | cons c cs ih =>
    intro j0 acc j msg hj hraise hni
    cases j with
    | zero =>
      simp only [Nat.add_zero] at hraise
      simp [runChunks, hraise]
    | succ j' =>
      have hne := hni 0 (Nat.succ_pos j')
      simp only [Nat.add_zero] at hne
      cases hf : fetch j0 with
      | raise m => exact absurd hf (hne m)
      | notOk =>
        simp only [runChunks, hf]
        exact ih (j0 + 1) acc j' msg (by simpa using hj)
          (by rw [show j0 + 1 + j' = j0 + (j' + 1) by omega]; exact hraise)
          (fun i hi m => by
            rw [show j0 + 1 + i = j0 + (i + 1) by omega]
            exact hni (i + 1) (by omega) m)
      | ok ps =>
        simp only [runChunks, hf]
        exact ih (j0 + 1) (parsePages acc ps) j' msg (by simpa using hj)
          (by rw [show j0 + 1 + j' = j0 + (j' + 1) by omega]; exact hraise)
          (fun i hi m => by
            rw [show j0 + 1 + i = j0 + (i + 1) by omega]
            exact hni (i + 1) (by omega) m)

/-- C10 (confirmed): if some chunk's batched query raises at the
transport level (all retries exhausted) while every earlier chunk did
not raise, the remaining chunks and the whole reconciliation step are
skipped silently: `files` contains exactly the seed-phase records and no
`files_error` key is recorded. -/
theorem C10_chunk_raise_silently_keeps_seed (p : PageInputs)
    (fetch : Nat → ChunkOutcome) (imgs : List Img) (j : Nat)
    (msg : String) (himgs : p.imagesR = .ok imgs)
    (hj : j < (chunksOf50
      (((seedFiles (imgs.take 100)).2).take 100)).length)
    (hraise : fetch j = .raise msg)
    (hprev : ∀ i, i < j → ∀ m, fetch i ≠ .raise m) :
    (buildSections p fetch).files = (seedFiles (imgs.take 100)).1 ∧
    (buildSections p fetch).files_error = none := by
  refine ⟨?_, rfl⟩
  simp only [buildSections, himgs]
  unfold filesSectionCore
  by_cases he : ((seedFiles (imgs.take 100)).2).isEmpty
  · rw [List.isEmpty_iff] at he
    rw [he] at hj
    simp [chunksOf50, chunksFuel] at hj
  · have herr := runChunks_error_of_raise fetch
      (chunksOf50 (((seedFiles (imgs.take 100)).2).take 100)) 0 [] j msg
      hj (by simpa using hraise) (fun i hi m => by simpa using hprev i hi m)
    simp [he, herr]

def imgC10 : Img := ⟨some "F.pdf", none, none⟩

def pC10w : PageInputs :=
  { nameR := .ok "n", pageTitleR := .ok "t", pageid := none, ns := none,
    revision := none, categoriesR := .ok [], imagesR := .ok [imgC10],
    revisionsR := .ok [] }

def fetchRaise : Nat → ChunkOutcome := fun _ => ChunkOutcome.raise "net down"

/-- Witness for C10: one seeded file titled `F.pdf`, whose single
batched chunk query raises; the document keeps the seeded record and no
`files_error` key. -/
theorem C10_chunk_raise_silently_keeps_seed_witness :
    (buildSections pC10w fetchRaise).files =
      (seedFiles ([imgC10].take 100)).1 ∧
    (buildSections pC10w fetchRaise).files_error = none :=
  C10_chunk_raise_silently_keeps_seed pC10w fetchRaise [imgC10] 0
    "net down" rfl (by decide) rfl
    (fun i hi m => absurd hi (by omega))

end ImslpEnrich
